import Mathlib

/-!
Verification of the order-fulfillment core of the starrs-famous ordering
platform: the client-side rate limiter (`src/lib/rateLimit.ts`), the SQL
order-number allocator and status triggers (migration embedded after
`useAddressAutocomplete.ts`), the order intake pipeline
(`useOrders.ts` / `createOrder`), and the Lalamove signing proxy
(`supabase/functions/lalamove/index.ts`).

Machine integers of the source (JS numbers used as millisecond clocks and
counters) are modelled as `Nat`; money as `Int`; fallible effects as
explicit outcome parameters; storage as explicit state.
-/

namespace StarrsFamous

/-- The two gated action kinds of `rateLimit.ts` (`ActionType`). -/
inductive ActionType where
  | order_placement
  | admin_action
deriving DecidableEq, Repr

/-- Structure `RateLimitEntry` of `rateLimit.ts`: identity string, action kind,
millisecond timestamp of the gating action and millisecond expiry. -/
structure RateLimitEntry where
  ip : String
  actionType : ActionType
  timestamp : Nat
  expiresAt : Nat
deriving DecidableEq, Repr

/-- Function `getStoredRateLimits` of `rateLimit.ts`: reads the raw localStorage
value (`none` models a missing key), parses it with the platform JSON
parser (`parse`, whose failure models a `JSON.parse` throw caught by the
`catch` branch, which returns `[]`), and filters out expired entries
(`entry.expiresAt > now`). Any storage/parse error yields `[]`. -/
def getStoredRateLimits (parse : String → Option (List RateLimitEntry))
    (raw : Option String) (now : Nat) : List RateLimitEntry :=
  match raw with
  | none => []
  | some s =>
    match parse s with
    | none => []
    | some entries => entries.filter (fun e => now < e.expiresAt)

/-- Result shape of `checkRateLimit`: `{ allowed, cooldownRemaining? }`. -/
structure RateLimitCheck where
  allowed : Bool
  cooldownRemaining : Option Nat
deriving DecidableEq, Repr

/-- The most recent entry: `entries.filter(...).sort((a,b) => b.timestamp -
a.timestamp)[0]` — the first entry of maximal `timestamp`. -/
def mostRecent (entries : List RateLimitEntry) : Option RateLimitEntry :=
  entries.foldl
    (fun acc e =>
      match acc with
      | none => some e
      | some a => if a.timestamp < e.timestamp then some e else some a)
    none

/-- Ceiling division `Math.ceil (a / b)` on nonnegative integers. -/
def ceilDiv (a b : Nat) : Nat := (a + b - 1) / b

/-- Function `checkRateLimit` of `rateLimit.ts`: reads stored entries, finds the
most recent entry for `(ip, actionType)`; allows if there is none or
`now >= expiresAt`; otherwise denies with
`cooldownRemaining = ceil((expiresAt - now) / 1000)` seconds.
The `cooldownSeconds` parameter is accepted (with default 30 in the
source) but never read by the body. -/
def checkRateLimit (parse : String → Option (List RateLimitEntry))
    (raw : Option String) (now : Nat) (ip : String) (actionType : ActionType)
    (_cooldownSeconds : Nat) : RateLimitCheck :=
  let entries := getStoredRateLimits parse raw now
  let recentEntry :=
    mostRecent (entries.filter (fun e => e.ip = ip ∧ e.actionType = actionType))
  match recentEntry with
  | none => { allowed := true, cooldownRemaining := none }
  | some e =>
    if e.expiresAt ≤ now then
      { allowed := true, cooldownRemaining := none }
    else
      { allowed := false,
        cooldownRemaining := some (ceilDiv (e.expiresAt - now) 1000) }

/-- Function `recordAction` of `rateLimit.ts`: removes any entry for the pair, adds
a fresh one expiring at `now + cooldownSeconds * 1000`, and saves with the
platform serializer. `saveRateLimits` wraps the write in try/catch: a
failed write (`writeOk = false`) is logged and leaves storage unchanged. -/
def recordAction (parse : String → Option (List RateLimitEntry))
    (serialize : List RateLimitEntry → String) (raw : Option String)
    (now : Nat) (ip : String) (actionType : ActionType)
    (cooldownSeconds : Nat) (writeOk : Bool) : Option String :=
  let entries := getStoredRateLimits parse raw now
  let expiresAt := now + cooldownSeconds * 1000
  let filtered :=
    entries.filter (fun e => ¬(e.ip = ip ∧ e.actionType = actionType))
  let newEntries :=
    filtered ++ [{ ip := ip, actionType := actionType,
                   timestamp := now, expiresAt := expiresAt }]
  if writeOk then some (serialize newEntries) else raw

/-- Order status values of the `orders.status` check constraint. -/
inductive Status where
  | pending
  | confirmed
  | preparing
  | ready
  | out_for_delivery
  | completed
  | cancelled
deriving DecidableEq, Repr

/-- Values of the `service_type` check constraint. -/
inductive ServiceType where
  | dineIn
  | pickup
  | delivery
deriving DecidableEq, Repr

/-- A persisted `orders` row (the columns the order pipeline and status
machinery touch). `created_date` is `DATE(created_at)` as a string;
clock columns are millisecond `Nat`s; money is `Int`. -/
structure OrderRow where
  id : Nat
  order_number : String
  customer_name : String
  contact_number : String
  service_type : ServiceType
  payment_method : String
  reference_number : Option String
  status : Status
  total : Int
  delivery_fee : Option Int
  lalamove_quotation_id : Option String
  lalamove_order_id : Option String
  lalamove_status : Option String
  lalamove_tracking_url : Option String
  notes : Option String
  customer_ip : String
  created_date : String
  updated_at : Nat
  completed_at : Option Nat
deriving DecidableEq, Repr

/-- A persisted `order_items` row. -/
structure OrderItemRow where
  order_id : Nat
  menu_item_id : Option String
  menu_item_name : String
  quantity : Nat
  unit_price : Int
  total_price : Int
  selected_variation : Option String
  selected_add_ons : Option String
deriving DecidableEq, Repr

/-- The durable store: the `orders` and `order_items` tables. -/
structure Store where
  orders : List OrderRow
  order_items : List OrderItemRow
deriving DecidableEq, Repr

/-! ## Order number allocator (`generate_order_number`, SQL) -/

/-- Postgres `LPAD(s, 4, '0')`: pad on the left with `'0'` up to length 4,
truncating to the leftmost 4 characters when `s` is longer. -/
def lpad4 (s : String) : String :=
  if 4 ≤ s.length then s.take 4
  else String.mk (List.replicate (4 - s.length) '0') ++ s

/-- The candidate order number
`'ORD-' || TO_CHAR(CURRENT_DATE,'YYYYMMDD') || '-' || LPAD(k::text,4,'0')`. -/
def orderNumber (date : String) (k : Nat) : String :=
  "ORD-" ++ date ++ "-" ++ lpad4 (toString k)

/-- Count `SELECT COUNT(*) FROM orders WHERE DATE(created_at) = CURRENT_DATE`. -/
def todayCount (orders : List OrderRow) (today : String) : Nat :=
  (orders.filter (fun o => o.created_date = today)).length

/-- The `WHILE EXISTS (...) LOOP order_count := order_count + 1 ... END
LOOP` of `generate_order_number`, run for at most `fuel` iterations of the
membership test. `none` means the loop is still running after `fuel`
tests: the source loop has no retry bound and no failure branch, so fuel
exhaustion models a loop that has not yet terminated, not an error
result. -/
def allocLoop (taken : List String) (date : String) : Nat → Nat → Option String
  | 0, _ => none
  | fuel + 1, k =>
    if orderNumber date k ∈ taken then allocLoop taken date fuel (k + 1)
    else some (orderNumber date k)

/-- Function `generate_order_number()` (SQL): count the orders of today, propose
`count + 1`, and increment past any order number already present in
`orders`. -/
def generate_order_number (orders : List OrderRow) (today : String)
    (fuel : Nat) : Option String :=
  allocLoop (orders.map (fun o => o.order_number)) today fuel
    (todayCount orders today + 1)

/-! ## Status update triggers -/

/-- Effect of `UPDATE orders SET status = newStatus` on one row, with its
two `BEFORE UPDATE` triggers: `update_updated_at_column` sets
`updated_at = now()`, and `set_completed_at` stamps `completed_at = now()`
on a transition into `completed`, clears it when the new status is not
`completed`, and otherwise leaves it unchanged. -/
def applyUpdateTrigger (now : Nat) (old : OrderRow) (newStatus : Status) :
    OrderRow :=
  let newRow := { old with status := newStatus, updated_at := now }
  if newStatus = Status.completed ∧ old.status ≠ Status.completed then
    { newRow with completed_at := some now }
  else if newStatus ≠ Status.completed then
    { newRow with completed_at := none }
  else
    newRow

/-- Function `updateOrderStatus` of `useOrders.ts`: one
`update({ status }).eq(id)` statement; on a statement error nothing
changes and the error is rethrown. -/
def updateOrderStatus (now : Nat) (store : Store) (id : Nat)
    (status : Status) (updateOk : Bool) : Store × Except String Unit :=
  if updateOk then
    ({ store with
        orders := store.orders.map (fun o =>
          if o.id = id then applyUpdateTrigger now o status else o) },
      Except.ok ())
  else (store, Except.error "Error updating order status")

/-- Function `bulkUpdateStatus` of `useOrders.ts`: one single
`update({ status }).in(ids)` statement over the whole batch; on a
statement error nothing changes and the error is rethrown. -/
def bulkUpdateStatus (now : Nat) (store : Store) (ids : List Nat)
    (status : Status) (updateOk : Bool) : Store × Except String Unit :=
  if updateOk then
    ({ store with
        orders := store.orders.map (fun o =>
          if o.id ∈ ids then applyUpdateTrigger now o status else o) },
      Except.ok ())
  else (store, Except.error "Error bulk updating order status")

/-! ## Order intake pipeline (`createOrder` of `useOrders.ts`) -/

/-- A cart line as `createOrder` receives it (`CartItem`): `id` is
`menuItemId-variationId-addOnIds`, `totalPrice` the per-unit price after
variation/add-ons. -/
structure CartItem where
  id : String
  name : String
  quantity : Nat
  totalPrice : Int
  selectedVariation : Option String
  selectedAddOns : Option String
deriving DecidableEq, Repr

/-- The regex `^([0-9a-f]{8}-[0-9a-f]{4}-[0-9a-f]{4}-[0-9a-f]{4}-[0-9a-f]{12})`
with the `i` flag: a hex digit, upper or lower case. -/
def isHexDigit (c : Char) : Bool :=
  c.isDigit || ('a' ≤ c ∧ c ≤ 'f') || ('A' ≤ c ∧ c ≤ 'F')

/-- Extraction of the leading menu-item UUID from a cart item id:
`item.id.match(/^([0-9a-f]{8}-[0-9a-f]{4}-[0-9a-f]{4}-[0-9a-f]{4}-[0-9a-f]{12})/i)`,
`none` when the prefix is not UUID-shaped. -/
def extractMenuItemId (s : String) : Option String :=
  let cs := s.toList.take 36
  if cs.length = 36 ∧
      (List.range 36).all (fun i =>
        if i = 8 ∨ i = 13 ∨ i = 18 ∨ i = 23 then cs.getD i ' ' = '-'
        else isHexDigit (cs.getD i ' ')) then
    some (String.mk cs)
  else none

/-- Structure `DeliveryStoreConfig` of `lalamove.ts` (as produced by
`buildLalamoveConfig`); latitude/longitude kept as integers since only the
presence of a config matters to the pipeline. -/
structure DeliveryStoreConfig where
  market : String
  serviceType : String
  sandbox : Bool
  storeName : String
  storePhone : String
  storeAddress : String
  storeLatitude : Int
  storeLongitude : Int
deriving DecidableEq, Repr

/-- Structure `DeliveryOrderResult` of `lalamove.ts`. -/
structure DeliveryOrderResult where
  orderId : String
  status : String
  shareLink : String
  driverId : Option String
deriving DecidableEq, Repr

/-- Structure `CreateOrderOptions` of `useOrders.ts`. -/
structure CreateOrderOptions where
  address : Option String := none
  landmark : Option String := none
  pickupTime : Option String := none
  partySize : Option Nat := none
  dineInTime : Option String := none
  referenceNumber : Option String := none
  notes : Option String := none
  deliveryFee : Option Int := none
  lalamoveQuotationId : Option String := none
  deliveryLat : Option Int := none
  deliveryLng : Option Int := none
deriving DecidableEq, Repr

/-- Outcomes of the awaited fallible calls inside one `createOrder` run:
whether the `orders` insert succeeds, whether the `order_items` insert
succeeds, the result of `createDeliveryOrder` (`none` models a thrown
booking failure — network timeout, provider error or exception — caught
by the surrounding `try`), whether the follow-up lalamove-fields update
succeeds, and whether the localStorage write inside `recordAction`
succeeds. -/
structure Effects where
  orderInsertOk : Bool
  itemsInsertOk : Bool
  bookingResult : Option DeliveryOrderResult
  lalamoveUpdateOk : Bool
  writeOk : Bool
deriving DecidableEq, Repr

/-- Result of one `createOrder` run: the durable store afterwards, the
client rate-limit storage afterwards, and the returned order id or the
thrown error message. -/
structure CreateResult where
  store : Store
  clientRaw : Option String
  result : Except String Nat
deriving Repr

/-- The `.update({lalamove_order_id, lalamove_status,
lalamove_tracking_url}).eq(id)` call after a successful booking. -/
def updateLalamoveFields (store : Store) (id : Nat)
    (r : DeliveryOrderResult) : Store :=
  { store with
    orders := store.orders.map (fun o =>
      if o.id = id then
        { o with
          lalamove_order_id := some r.orderId,
          lalamove_status := some r.status,
          lalamove_tracking_url := some r.shareLink }
      else o) }

/-- Function `createOrder` of `useOrders.ts`, lines 161 to 313. Steps in source
order: (1) client-side `checkRateLimit` — throw on denial (the server-side
`check_rate_limit` RPC is never invoked; the source comment defers it);
(2) `generate_order_number` RPC — throw on null; (3) insert the `orders`
row with `status = pending` and null lalamove booking fields — throw on
error; (4) insert all `order_items` rows — throw on error, with the order
row of step (3) already persisted; (5) if delivery with a quotation id and
a lalamove config, attempt `createDeliveryOrder` inside try/catch — a
thrown booking failure is logged and skipped; a returned booking updates
the lalamove fields, itself non-fatally; (6) `recordAction`; (7) re-fetch
the created order, throwing only if it is absent. -/
def createOrder (parse : String → Option (List RateLimitEntry))
    (serialize : List RateLimitEntry → String)
    (now : Nat) (today : String) (fuel : Nat) (nextOrderId : Nat)
    (lalamoveConfig : Option DeliveryStoreConfig) (eff : Effects)
    (store : Store) (clientRaw : Option String) (clientIP : String)
    (cartItems : List CartItem) (customerName contactNumber : String)
    (serviceType : ServiceType) (paymentMethod : String) (total : Int)
    (options : CreateOrderOptions) : CreateResult :=
  let rateLimitCheck := checkRateLimit parse clientRaw now clientIP
    ActionType.order_placement 30
  if ¬rateLimitCheck.allowed then
    { store := store, clientRaw := clientRaw,
      result := Except.error "Rate limit exceeded" }
  else
    match generate_order_number store.orders today fuel with
    | none =>
      { store := store, clientRaw := clientRaw,
        result := Except.error "Failed to generate order number" }
    | some number =>
      if ¬eff.orderInsertOk then
        { store := store, clientRaw := clientRaw,
          result := Except.error "order insert failed" }
      else
        let row : OrderRow :=
          { id := nextOrderId, order_number := number,
            customer_name := customerName, contact_number := contactNumber,
            service_type := serviceType, payment_method := paymentMethod,
            reference_number := options.referenceNumber,
            status := Status.pending, total := total,
            delivery_fee := options.deliveryFee,
            lalamove_quotation_id := options.lalamoveQuotationId,
            lalamove_order_id := none, lalamove_status := none,
            lalamove_tracking_url := none, notes := options.notes,
            customer_ip := clientIP, created_date := today,
            updated_at := now, completed_at := none }
        let store1 := { store with orders := store.orders ++ [row] }
        if ¬eff.itemsInsertOk then
          { store := store1, clientRaw := clientRaw,
            result := Except.error "items insert failed" }
        else
          let items := cartItems.map (fun item =>
            { order_id := nextOrderId,
              menu_item_id := extractMenuItemId item.id,
              menu_item_name := item.name, quantity := item.quantity,
              unit_price := item.totalPrice,
              total_price := item.totalPrice * item.quantity,
              selected_variation := item.selectedVariation,
              selected_add_ons := item.selectedAddOns : OrderItemRow })
          let store2 :=
            { store1 with order_items := store1.order_items ++ items }
          let store3 :=
            match serviceType, options.lalamoveQuotationId, lalamoveConfig,
                eff.bookingResult with
            | ServiceType.delivery, some _, some _, some r =>
              if eff.lalamoveUpdateOk then
                updateLalamoveFields store2 nextOrderId r
              else store2
            | _, _, _, _ => store2
          let clientRaw2 := recordAction parse serialize clientRaw now
            clientIP ActionType.order_placement 30 eff.writeOk
          match store3.orders.find? (fun o => o.id = nextOrderId) with
          | some _ =>
            { store := store3, clientRaw := clientRaw2,
              result := Except.ok nextOrderId }
          | none =>
            { store := store3, clientRaw := clientRaw2,
              result := Except.error "Failed to fetch created order" }

/-! ## Lalamove signing proxy (`supabase/functions/lalamove/index.ts`) -/

/-- The base64 alphabet used by `btoa`. -/
def base64Table : List Char :=
  "ABCDEFGHIJKLMNOPQRSTUVWXYZabcdefghijklmnopqrstuvwxyz0123456789+/".toList

/-- One base64 output character. -/
def b64char (n : Nat) : Char := base64Table.getD n '='

/-- Encoder `arrayBufferToBase64` / `btoa`: standard base64 of a byte sequence,
with `=` padding. -/
def b64encode : List Nat → String
  | [] => ""
  | [a] =>
    String.mk [b64char (a / 4), b64char (a % 4 * 16)] ++ "=="
  | [a, b] =>
    String.mk [b64char (a / 4), b64char (a % 4 * 16 + b / 16),
      b64char (b % 16 * 4)] ++ "="
  | a :: b :: c :: rest =>
    String.mk [b64char (a / 4), b64char (a % 4 * 16 + b / 16),
      b64char (b % 16 * 4 + c / 64), b64char (c % 64)] ++ b64encode rest

/-- Result of `signRequest`. -/
structure SignResult where
  timestamp : String
  signature : String
deriving DecidableEq, Repr

/-- Function `signRequest` of the proxy: `timestamp = new Date().toISOString()`
(passed in as `nowIso`, the ISO-8601 clock reading at send time), the
canonical message `` `${timestamp}\r\n${method}\r\n${path}\r\n\r\n${body}` ``,
and the base64 of its HMAC-SHA256 under `secret`. `hmacSha256 secret
message` stands for the platform `crypto.subtle` HMAC-SHA256 primitive,
returning the raw digest bytes. -/
def signRequest (hmacSha256 : String → String → List Nat)
    (nowIso : String) (method path body secret : String) : SignResult :=
  let message :=
    nowIso ++ "\r\n" ++ method ++ "\r\n" ++ path ++ "\r\n\r\n" ++ body
  { timestamp := nowIso,
    signature := b64encode (hmacSha256 secret message) }

/-- Function `quoteBaseUrl` of the proxy. -/
def quoteBaseUrl (sandbox : Bool) : String :=
  if sandbox then "https://rest.sandbox.lalamove.com/v3"
  else "https://rest.lalamove.com/v3"

/-- The outbound HTTP request `makeLalamoveRequest` hands to `fetch`. -/
structure LalamoveRequest where
  url : String
  method : String
  headers : List (String × String)
  body : Option String
deriving DecidableEq, Repr

/-- Function `makeLalamoveRequest` of the proxy: serializes the body (empty string
when `null`), signs it, and sends it with `Content-Type`, the
`X-LLM-Market` market header, `Authorization: hmac <API_KEY>:<signature>`
and a fresh `X-Request-Id: srv-<uuid>` correlation id (`uuid` is the
`crypto.randomUUID()` drawn for this request). `bodyString || undefined`
drops an empty body. -/
def makeLalamoveRequest (hmacSha256 : String → String → List Nat)
    (nowIso uuid apiKey apiSecret : String) (method path : String)
    (body : Option String) (market : String) (sandbox : Bool) :
    LalamoveRequest :=
  let bodyString := body.getD ""
  let s := signRequest hmacSha256 nowIso method path bodyString apiSecret
  { url := quoteBaseUrl sandbox ++ path,
    method := method,
    headers :=
      [("Content-Type", "application/json"),
       ("X-LLM-Market", market),
       ("Authorization", "hmac " ++ apiKey ++ ":" ++ s.signature),
       ("X-Request-Id", "srv-" ++ uuid)],
    body := if bodyString = "" then none else some bodyString }

/-! ## Supporting definitions for the statements -/

/-- Invariant of claim C7: the completion timestamp is non-null exactly
when the status is `completed`. -/
def completedInv (o : OrderRow) : Prop :=
  o.completed_at ≠ none ↔ o.status = Status.completed

/-- A minimal persisted `pending` dine-in order row, used to build
concrete stores. -/
def sampleRow (id : Nat) (num : String) : OrderRow :=
  { id := id, order_number := num, customer_name := "n",
    contact_number := "c", service_type := ServiceType.dineIn,
    payment_method := "cash", reference_number := none,
    status := Status.pending, total := 0, delivery_fee := none,
    lalamove_quotation_id := none, lalamove_order_id := none,
    lalamove_status := none, lalamove_tracking_url := none, notes := none,
    customer_ip := "ip", created_date := "20250101", updated_at := 0,
    completed_at := none }

/-- A store with no orders and no items. -/
def emptyStore : Store := { orders := [], order_items := [] }

/-- The one-line cart of the spec scenario:
`[{name: "Shake", qty: 2, unit: 120}]`. -/
def shakeCart : List CartItem :=
  [{ id := "shake-1", name := "Shake", quantity := 2, totalPrice := 120,
     selectedVariation := none, selectedAddOns := none }]

/-- Effect outcomes where every fallible call succeeds and no booking is
attempted or returned. -/
def effAllOk : Effects :=
  { orderInsertOk := true, itemsInsertOk := true, bookingResult := none,
    lalamoveUpdateOk := true, writeOk := true }

/-- Effect outcomes where the `order_items` insert fails after the
`orders` insert succeeded. -/
def effItemsFail : Effects :=
  { orderInsertOk := true, itemsInsertOk := false, bookingResult := none,
    lalamoveUpdateOk := true, writeOk := true }

/-- A JSON parser stub that always fails, modelling corrupted persisted
JSON (`JSON.parse` throwing). -/
def parseFail : String → Option (List RateLimitEntry) := fun _ => none

/-- A JSON parser stub whose storage holds exactly one
`order_placement` entry for identity `a`, recorded at time 0 with a
30-second cooldown, so that it expires at millisecond 30000. -/
def parseOneEntry : String → Option (List RateLimitEntry) := fun _ =>
  some [{ ip := "a", actionType := ActionType.order_placement,
          timestamp := 0, expiresAt := 0 + 30 * 1000 }]

/-- A store holding two pending orders with ids 1 and 2. -/
def twoOrderStore : Store :=
  { orders := [sampleRow 1 "ORD-20250101-0001", sampleRow 2 "ORD-20250101-0002"],
    order_items := [] }

/-- A store holding 51 orders created today whose numbers occupy the
whole range `ORD-20250101-0052 … ORD-20250101-0102`, so that the
allocator, proposing `todayCount + 1 = 52`, must retry 51 times. -/
def retryStore : Store :=
  { orders := (List.range 51).map
      (fun i => sampleRow i (orderNumber "20250101" (52 + i))),
    order_items := [] }

/-- Run of `createOrder` in which the `order_items` insert fails right
after the `orders` insert succeeded (`effItemsFail`). -/
def itemsFailRun : CreateResult :=
  createOrder parseFail (fun _ => "s") 1000 "20250101" 10 1 none
    effItemsFail emptyStore none "session1" shakeCart "Ana" "0917"
    ServiceType.dineIn "cash" 240 {}

/-- First of two submissions from the same identity, 5 seconds apart. -/
def doubleRun1 : CreateResult :=
  createOrder parseFail (fun _ => "s") 1000 "20250101" 10 1 none effAllOk
    emptyStore none "session1" shakeCart "Ana" "0917" ServiceType.dineIn
    "cash" 240 {}

/-- Second submission from the same identity 5 seconds later, arriving
with absent client-side rate-limit storage (`clientRaw = none`), which a
caller can always arrange since the storage is client-controlled. -/
def doubleRun2 : CreateResult :=
  createOrder parseFail (fun _ => "s") 6000 "20250101" 10 2 none effAllOk
    doubleRun1.store none "session1" shakeCart "Ana" "0917"
    ServiceType.dineIn "cash" 240 {}

/-- A populated Lalamove store configuration for concrete runs. -/
def sampleCfg : DeliveryStoreConfig :=
  { market := "PH", serviceType := "MOTORCYCLE", sandbox := true,
    storeName := "Starrs", storePhone := "+63111", storeAddress := "Store St",
    storeLatitude := 14, storeLongitude := 121 }

/-- Delivery options carrying a quotation id, as supplied at checkout. -/
def deliveryOpts : CreateOrderOptions :=
  { address := some "Home", deliveryFee := some 60,
    lalamoveQuotationId := some "q1", deliveryLat := some 14,
    deliveryLng := some 121 }

/-! ## Helper lemmas -/

/-- The trigger always installs the requested status and keeps the id. -/
theorem applyUpdateTrigger_fields (now : Nat) (o : OrderRow) (s : Status) :
    (applyUpdateTrigger now o s).status = s ∧
    (applyUpdateTrigger now o s).id = o.id := by
  unfold applyUpdateTrigger
  split <;> try split
  all_goals simp

/-- The trigger preserves the completion-timestamp invariant on one row. -/
theorem applyUpdateTrigger_inv (now : Nat) (o : OrderRow) (s : Status)
    (h : completedInv o) : completedInv (applyUpdateTrigger now o s) := by
  unfold applyUpdateTrigger completedInv at *
  by_cases hs : s = Status.completed
  · by_cases ho : o.status = Status.completed
    · simp [hs, ho] at *
      exact h
    · simp [hs, ho]
  · simp [hs]

/-- When the allocation loop returns a number, it is the first candidate,
counting from the start value, that is not already taken. -/
theorem allocLoop_eq_some (taken : List String) (date : String) :
    ∀ fuel k s, allocLoop taken date fuel k = some s →
      ∃ j, j < fuel ∧ s = orderNumber date (k + j) ∧ s ∉ taken ∧
        ∀ i < j, orderNumber date (k + i) ∈ taken := by
  intro fuel
  induction fuel with
  | zero => intro k s h; simp [allocLoop] at h
  | succ f ih =>
    intro k s h
    unfold allocLoop at h
    by_cases hm : orderNumber date k ∈ taken
    · rw [if_pos hm] at h
      obtain ⟨j, hj, hs, hnot, hall⟩ := ih (k + 1) s h
      refine ⟨j + 1, by omega, ?_, hnot, ?_⟩
      · rw [hs]; congr 1; omega
      · intro i hi
        cases i with
        | zero => simpa using hm
        | succ i =>
          have := hall i (by omega)
          have harith : k + (i + 1) = k + 1 + i := by omega
          rw [harith]; exact this
    · rw [if_neg hm] at h
      refine ⟨0, by omega, ?_, ?_, fun i hi => absurd hi (by omega)⟩
      · cases h; simp
      · cases h; exact hm

/-- String concatenation is associative. -/
theorem string_append_assoc (a b c : String) :
    a ++ b ++ c = a ++ (b ++ c) := by
  apply String.ext
  simp [String.data_append]

/-! ## Claim theorems -/

/-- C6: every request the proxy sends carries the send-time ISO-8601
timestamp, is authenticated by `Authorization: hmac <public-key>:<sig>`
where `<sig>` is the base64 of the HMAC-SHA256 (under the shared secret)
of the canonical string
`timestamp + CRLF + method + CRLF + path + CRLF + CRLF + body`, and also
carries the market header and a freshly generated `srv-`-prefixed
request-correlation id. -/
theorem makeLalamoveRequest_signing (hmac : String → String → List Nat)
    (nowIso uuid apiKey apiSecret method path market : String)
    (body : Option String) (sandbox : Bool) :
    ("Authorization", "hmac " ++ apiKey ++ ":" ++
        b64encode (hmac apiSecret (nowIso ++ "\r\n" ++ method ++ "\r\n" ++
          path ++ "\r\n\r\n" ++ body.getD ""))) ∈
      (makeLalamoveRequest hmac nowIso uuid apiKey apiSecret method path
        body market sandbox).headers ∧
    ("X-LLM-Market", market) ∈
      (makeLalamoveRequest hmac nowIso uuid apiKey apiSecret method path
        body market sandbox).headers ∧
    ("X-Request-Id", "srv-" ++ uuid) ∈
      (makeLalamoveRequest hmac nowIso uuid apiKey apiSecret method path
        body market sandbox).headers ∧
    (signRequest hmac nowIso method path (body.getD "") apiSecret).timestamp
      = nowIso := by
  refine ⟨?_, ?_, ?_, rfl⟩ <;> simp [makeLalamoveRequest, signRequest]

/-- C7: every status update preserves the invariant that `completed_at`
is non-null exactly when the status is `completed`; a transition into
`completed` stamps `completed_at = now`, a transition out of `completed`
clears it, and the same holds for every row after the
`updateOrderStatus` statement. -/
theorem updateOrderStatus_completed_at (now : Nat) (o : OrderRow)
    (s : Status) (h : completedInv o) :
    completedInv (applyUpdateTrigger now o s) ∧
    (s = Status.completed → o.status ≠ Status.completed →
      (applyUpdateTrigger now o s).completed_at = some now) ∧
    (o.status = Status.completed → s ≠ Status.completed →
      (applyUpdateTrigger now o s).completed_at = none) ∧
    (∀ store id updateOk, (∀ r ∈ store.orders, completedInv r) →
      ∀ r ∈ (updateOrderStatus now store id s updateOk).1.orders,
        completedInv r) := by
  refine ⟨applyUpdateTrigger_inv now o s h, ?_, ?_, ?_⟩
  · intro hs ho
    simp [applyUpdateTrigger, hs, ho]
  · intro ho hs
    simp [applyUpdateTrigger, hs]
  · intro store id updateOk hstore r hr
    unfold updateOrderStatus at hr
    by_cases hu : updateOk
    · rw [if_pos hu] at hr
      simp only [List.mem_map] at hr
      obtain ⟨p, hp, hpr⟩ := hr
      by_cases hid : p.id = id
      · rw [if_pos hid] at hpr
        exact hpr ▸ applyUpdateTrigger_inv now p s (hstore p hp)
      · rw [if_neg hid] at hpr
        exact hpr ▸ hstore p hp
    · rw [if_neg hu] at hr
      exact hstore r hr

/-- Witness for C7 at a concrete pending row moved into `completed`. -/
theorem updateOrderStatus_completed_at_witness :
    completedInv (applyUpdateTrigger 7 (sampleRow 1 "A") Status.completed) ∧
    (applyUpdateTrigger 7 (sampleRow 1 "A") Status.completed).completed_at
      = some 7 :=
  ⟨(updateOrderStatus_completed_at 7 (sampleRow 1 "A") Status.completed
      (by simp [completedInv, sampleRow])).1,
   (updateOrderStatus_completed_at 7 (sampleRow 1 "A") Status.completed
      (by simp [completedInv, sampleRow])).2.1 rfl (by decide)⟩

/-- C10: the client-side rate limiter fails open — when the persisted
JSON cannot be parsed the stored set is treated as empty and every
identity/action pair is allowed, and a failing storage write inside
`recordAction` silently leaves storage unchanged. -/
theorem rateLimit_fails_open :
    (∀ (parse : String → Option (List RateLimitEntry)) (s : String)
        (now : Nat) (ip : String) (act : ActionType) (c : Nat),
      parse s = none →
        getStoredRateLimits parse (some s) now = [] ∧
        (checkRateLimit parse (some s) now ip act c).allowed = true) ∧
    (∀ (parse : String → Option (List RateLimitEntry))
        (serialize : List RateLimitEntry → String) (raw : Option String)
        (now : Nat) (ip : String) (act : ActionType) (c : Nat),
      recordAction parse serialize raw now ip act c false = raw) := by
  constructor
  · intro parse s now ip act c h
    refine ⟨?_, ?_⟩
    · simp [getStoredRateLimits, h]
    · simp [checkRateLimit, getStoredRateLimits, h, mostRecent]
  · intro parse serialize raw now ip act c
    simp [recordAction]

/-- Witness for C10 with a concrete always-failing parse and a failing
write. -/
theorem rateLimit_fails_open_witness :
    (getStoredRateLimits parseFail (some "x") 0 = [] ∧
      (checkRateLimit parseFail (some "x") 0 "a"
        ActionType.order_placement 30).allowed = true) ∧
    recordAction parseFail (fun _ => "y") (some "x") 0 "a"
      ActionType.order_placement 30 false = some "x" :=
  ⟨rateLimit_fails_open.1 parseFail "x" 0 "a" ActionType.order_placement 30
      rfl,
   rateLimit_fails_open.2 parseFail (fun _ => "y") (some "x") 0 "a"
      ActionType.order_placement 30⟩

/-- C8 counterexample: at the exact expiry boundary (`now` equal to the
stored expiry, here both 30000 ms) the check ALLOWS the action, whereas
the claim says the tie resolves in favor of denial: the storage filter
keeps only entries with `expiresAt > now`, and the explicit branch allows
on `now >= expiresAt`. -/
theorem checkRateLimit_tie_allows :
    checkRateLimit parseOneEntry (some "s") 30000 "a"
      ActionType.order_placement 30 =
      { allowed := true, cooldownRemaining := none } := by decide

/-- C8 as amended: for a stored state holding exactly one entry for the
pair, recorded at `t0` with cooldown `c` (expiry `t0 + c * 1000`), the
check allows if and only if `now` has reached the expiry — the boundary
tie resolves in favor of ALLOWING — and otherwise denies with a
remaining-seconds value strictly greater than 0 and at most `c`. -/
theorem checkRateLimit_spec
    (parse : String → Option (List RateLimitEntry)) (s : String)
    (now : Nat) (ip : String) (act : ActionType) (c t0 : Nat)
    (hparse : parse s =
      some [(⟨ip, act, t0, t0 + c * 1000⟩ : RateLimitEntry)])
    (ht0 : t0 ≤ now) :
    ((checkRateLimit parse (some s) now ip act c).allowed = true ↔
      t0 + c * 1000 ≤ now) ∧
    (now < t0 + c * 1000 →
      (checkRateLimit parse (some s) now ip act c).allowed = false ∧
      ∃ m, (checkRateLimit parse (some s) now ip act c).cooldownRemaining
          = some m ∧ 0 < m ∧ m ≤ c) := by
  by_cases hlt : now < t0 + c * 1000
  · have hcheck : checkRateLimit parse (some s) now ip act c =
        { allowed := false,
          cooldownRemaining := some (ceilDiv (t0 + c * 1000 - now) 1000) } := by
      simp [checkRateLimit, getStoredRateLimits, hparse, hlt, mostRecent,
        Nat.not_le.mpr hlt]
    rw [hcheck]
    refine ⟨by simp; omega, fun _ => ⟨rfl, ceilDiv (t0 + c * 1000 - now) 1000,
      rfl, ?_, ?_⟩⟩
    · unfold ceilDiv; omega
    · unfold ceilDiv; omega
  · have hcheck : checkRateLimit parse (some s) now ip act c =
        { allowed := true, cooldownRemaining := none } := by
      simp [checkRateLimit, getStoredRateLimits, hparse, hlt, mostRecent]
    rw [hcheck]
    exact ⟨by simp; omega, fun hcon => absurd hcon hlt⟩

/-- Witness for C8 as amended: the spec scenario — a second submission 5
seconds after one recorded at time 0 with a 30-second cooldown is denied
with `0 < remaining <= 30`. -/
theorem checkRateLimit_spec_witness :
    (checkRateLimit parseOneEntry (some "s") 5000 "a"
       ActionType.order_placement 30).allowed = false ∧
    ∃ m, (checkRateLimit parseOneEntry (some "s") 5000 "a"
       ActionType.order_placement 30).cooldownRemaining = some m ∧
      0 < m ∧ m ≤ 30 :=
  (checkRateLimit_spec parseOneEntry "s" 5000 "a" ActionType.order_placement
      30 0 rfl (by omega)).2 (by omega)

/-- C9 counterexample: a bulk status change is issued as one single
`UPDATE ... IN (ids)` statement, so a failure of that statement (whatever
row caused it) leaves EVERY order of the batch unchanged — the order with
id 2 does not receive the status although only order 1 is at fault — and
the claim that one order failing does not prevent the others from being
updated is false. -/
theorem bulkUpdateStatus_failure_blocks_batch :
    ((bulkUpdateStatus 100 twoOrderStore [1, 2] Status.confirmed
        false).1.orders.map (fun o => o.status)) =
      [Status.pending, Status.pending] ∧
    (bulkUpdateStatus 100 twoOrderStore [1, 2] Status.confirmed false).2 =
      Except.error "Error bulk updating order status" :=
  ⟨by decide, rfl⟩

/-- C9 as amended: the bulk transition is atomic over the whole batch —
on success every listed order receives the target status and unlisted
rows are untouched, and on a statement failure no order in the batch is
changed at all. -/
theorem bulkUpdateStatus_atomic_batch (now : Nat) (store : Store)
    (ids : List Nat) (s : Status) :
    ((bulkUpdateStatus now store ids s true).2 = Except.ok () ∧
      (∀ o ∈ (bulkUpdateStatus now store ids s true).1.orders,
        o.id ∈ ids → o.status = s) ∧
      (∀ o ∈ (bulkUpdateStatus now store ids s true).1.orders,
        o.id ∉ ids → o ∈ store.orders)) ∧
    (bulkUpdateStatus now store ids s false).1 = store := by
  refine ⟨⟨rfl, ?_, ?_⟩, rfl⟩
  · intro o ho hid
    simp only [bulkUpdateStatus, if_true, List.mem_map] at ho
    obtain ⟨p, hp, hpo⟩ := ho
    by_cases hpid : p.id ∈ ids
    · rw [if_pos hpid] at hpo
      exact hpo ▸ (applyUpdateTrigger_fields now p s).1
    · rw [if_neg hpid] at hpo
      exact absurd (hpo ▸ hpid : o.id ∈ ids → False) (by simpa using hid)
  · intro o ho hid
    simp only [bulkUpdateStatus, if_true, List.mem_map] at ho
    obtain ⟨p, hp, hpo⟩ := ho
    by_cases hpid : p.id ∈ ids
    · rw [if_pos hpid] at hpo
      have : o.id = p.id := hpo ▸ (applyUpdateTrigger_fields now p s).2
      exact absurd (this ▸ hpid) hid
    · rw [if_neg hpid] at hpo
      exact hpo ▸ hp

/-- Witness for C9 as amended at a concrete two-order store. -/
theorem bulkUpdateStatus_atomic_batch_witness :
    (bulkUpdateStatus 100 twoOrderStore [1] Status.ready true).2 =
      Except.ok () ∧
    (applyUpdateTrigger 100 (sampleRow 1 "ORD-20250101-0001")
      Status.ready).status = Status.ready :=
  ⟨(bulkUpdateStatus_atomic_batch 100 twoOrderStore [1] Status.ready).1.1,
   (bulkUpdateStatus_atomic_batch 100 twoOrderStore [1] Status.ready).1.2.1
     (applyUpdateTrigger 100 (sampleRow 1 "ORD-20250101-0001") Status.ready)
     (by decide) (by decide)⟩

/-- C3: the allocator counts the orders created today, proposes
`count + 1`, and increments past any number already taken, so whenever it
returns it returns `ORD-<date>-NNNN` for the least untaken sequence value
at or above `count + 1`; with no order yet created today (and the
candidate number unused) the first order of the day receives the suffix
`0001`. -/
theorem generate_order_number_spec :
    (∀ (orders : List OrderRow) (today : String) (fuel : Nat) (s : String),
      generate_order_number orders today fuel = some s →
      ∃ k, todayCount orders today + 1 ≤ k ∧ s = orderNumber today k ∧
        s ∉ orders.map (fun o => o.order_number) ∧
        ∀ i, todayCount orders today + 1 ≤ i → i < k →
          orderNumber today i ∈ orders.map (fun o => o.order_number)) ∧
    (∀ (orders : List OrderRow) (today : String) (fuel : Nat),
      1 ≤ fuel → todayCount orders today = 0 →
      orderNumber today 1 ∉ orders.map (fun o => o.order_number) →
      generate_order_number orders today fuel = some (orderNumber today 1)) ∧
    (∀ today : String, orderNumber today 1 = "ORD-" ++ today ++ "-0001") := by
  refine ⟨?_, ?_, ?_⟩
  · intro orders today fuel s h
    unfold generate_order_number at h
    obtain ⟨j, hj, hs, hnot, hall⟩ :=
      allocLoop_eq_some (orders.map (fun o => o.order_number)) today fuel
        (todayCount orders today + 1) s h
    refine ⟨todayCount orders today + 1 + j, by omega, hs, hnot, ?_⟩
    intro i h1 h2
    have hi : i = todayCount orders today + 1 +
        (i - (todayCount orders today + 1)) := by omega
    rw [hi]
    exact hall _ (by omega)
  · intro orders today fuel hf h0 hmem
    unfold generate_order_number
    rw [h0]
    cases fuel with
    | zero => omega
    | succ f =>
      unfold allocLoop
      rw [if_neg hmem]
  · intro today
    unfold orderNumber
    have hl : lpad4 (toString 1) = "0001" := by decide
    rw [hl, string_append_assoc ("ORD-" ++ today) "-" "0001"]
    exact congrArg (fun t => "ORD-" ++ today ++ t)
      (by decide : "-" ++ "0001" = "-0001")

/-- Witness for C3 at a concrete empty store: the first order of the day
is numbered `ORD-20250101-0001`. -/
theorem generate_order_number_spec_witness :
    generate_order_number [] "20250101" 1 = some (orderNumber "20250101" 1) ∧
    orderNumber "20250101" 1 = "ORD-" ++ "20250101" ++ "-0001" ∧
    (∃ k, todayCount ([] : List OrderRow) "20250101" + 1 ≤ k ∧
      orderNumber "20250101" 1 = orderNumber "20250101" k ∧
      orderNumber "20250101" 1 ∉
        ([] : List OrderRow).map (fun o => o.order_number) ∧
      ∀ i, todayCount ([] : List OrderRow) "20250101" + 1 ≤ i → i < k →
        orderNumber "20250101" i ∈
          ([] : List OrderRow).map (fun o => o.order_number)) :=
  ⟨generate_order_number_spec.2.1 [] "20250101" 1 (by omega) (by decide)
      (by decide),
   generate_order_number_spec.2.2 "20250101",
   generate_order_number_spec.1 [] "20250101" 1 (orderNumber "20250101" 1)
      (by decide)⟩

/-- C4 counterexample: with 51 orders already created today occupying the
numbers 0052 through 0102, the allocator performs 51 retry attempts
without finding an unused number (after 51 membership tests the loop is
still running) and then, far beyond the claimed bound of about 50, simply
returns the next free number `ORD-20250101-0103` — it never signals an
allocation failure. -/
theorem generate_order_number_no_retry_bound :
    generate_order_number retryStore.orders "20250101" 51 = none ∧
    generate_order_number retryStore.orders "20250101" 60 =
      some (orderNumber "20250101" 103) := by
  constructor <;> decide

/-- C4 as amended: the retry-until-unique loop has no retry bound and no
failure signal — after any number of iterations it is still retrying
exactly when every candidate tried so far is taken — and when it does
return a number that number is not already taken. -/
theorem allocLoop_unbounded_retry :
    (∀ (taken : List String) (date : String) (fuel k : Nat),
      allocLoop taken date fuel k = none ↔
        ∀ j < fuel, orderNumber date (k + j) ∈ taken) ∧
    (∀ (orders : List OrderRow) (today : String) (fuel : Nat) (s : String),
      generate_order_number orders today fuel = some s →
        s ∉ orders.map (fun o => o.order_number)) := by
  constructor
  · intro taken date fuel
    induction fuel with
    | zero => intro k; simp [allocLoop]
    | succ f ih =>
      intro k
      unfold allocLoop
      by_cases hm : orderNumber date k ∈ taken
      · rw [if_pos hm, ih (k + 1)]
        constructor
        · intro h j hj
          cases j with
          | zero => simpa using hm
          | succ j =>
            have hshift := h j (by omega)
            have e : k + (j + 1) = k + 1 + j := by omega
            rw [e]
            exact hshift
        · intro h j hj
          have hshift := h (j + 1) (by omega)
          have e : k + 1 + j = k + (j + 1) := by omega
          rw [e]
          exact hshift
      · rw [if_neg hm]
        constructor
        · intro h
          exact absurd h (by simp)
        · intro h
          exact absurd (by simpa using h 0 (by omega)) hm
  · intro orders today fuel s h
    unfold generate_order_number at h
    obtain ⟨j, hj, hs, hnot, hall⟩ :=
      allocLoop_eq_some (orders.map (fun o => o.order_number)) today fuel
        (todayCount orders today + 1) s h
    exact hnot

/-- Witness for C4 as amended at concrete inputs. -/
theorem allocLoop_unbounded_retry_witness :
    (allocLoop [] "20250101" 0 1 = none ↔
      ∀ j < 0, orderNumber "20250101" (1 + j) ∈ ([] : List String)) ∧
    orderNumber "20250101" 1 ∉
      ([] : List OrderRow).map (fun o => o.order_number) :=
  ⟨allocLoop_unbounded_retry.1 [] "20250101" 0 1,
   allocLoop_unbounded_retry.2 [] "20250101" 1 (orderNumber "20250101" 1)
     (by decide)⟩

/-- C1 evaluated at the failing input: when the `order_items` insert
fails after the `orders` insert, `createOrder` throws, yet the order row
is already durably persisted — the store ends with one pending order
(`ORD-20250101-0001`) and zero items, the exact state the claim says can
never be reachable. There is no transactional boundary: the two inserts
are separate statements and the error path performs no rollback. -/
theorem createOrder_items_failure_persists_order :
    itemsFailRun.result = Except.error "items insert failed" ∧
    itemsFailRun.store.orders.map (fun o => o.order_number) =
      ["ORD-20250101-0001"] ∧
    itemsFailRun.store.orders.map (fun o => o.status) = [Status.pending] ∧
    itemsFailRun.store.order_items = [] :=
  ⟨rfl, by decide, by decide, rfl⟩

/-- C2 evaluated at the failing input: two submissions from the same
identity 5 seconds apart (well inside the 30-second cooldown) are BOTH
admitted and BOTH persisted when the second arrives without the
client-side storage — `createOrder` runs only the advisory client-side
check and never invokes the authoritative server-side `check_rate_limit`
function, so there is no enforcement point at the durable commit. -/
theorem createOrder_double_admission :
    doubleRun1.result = Except.ok 1 ∧
    doubleRun2.result = Except.ok 2 ∧
    doubleRun2.store.orders.map (fun o => o.customer_ip) =
      ["session1", "session1"] ∧
    6000 - 1000 < 30 * 1000 :=
  ⟨rfl, rfl, by decide, by omega⟩

/-- C5: for every delivery submission whose booking call fails (throws:
`eff.bookingResult = none`) after the order and items inserts succeeded,
`createOrder` still returns success, no rollback happens, and the
persisted order keeps `status = pending` with all Lalamove booking fields
null — the booking failure is only logged and never surfaced to the
submitter. -/
theorem createOrder_booking_failure_nonfatal
    (parse : String → Option (List RateLimitEntry))
    (serialize : List RateLimitEntry → String) (now : Nat) (today : String)
    (fuel nextOrderId : Nat) (cfg : DeliveryStoreConfig) (store : Store)
    (clientRaw : Option String) (clientIP : String)
    (cartItems : List CartItem) (customerName contactNumber : String)
    (paymentMethod : String) (total : Int) (options : CreateOrderOptions)
    (q number : String) (eff : Effects)
    (hallow : (checkRateLimit parse clientRaw now clientIP
      ActionType.order_placement 30).allowed = true)
    (hnum : generate_order_number store.orders today fuel = some number)
    (hq : options.lalamoveQuotationId = some q)
    (h1 : eff.orderInsertOk = true) (h2 : eff.itemsInsertOk = true)
    (h3 : eff.bookingResult = none)
    (hid : ∀ o ∈ store.orders, o.id ≠ nextOrderId) :
    (createOrder parse serialize now today fuel nextOrderId (some cfg) eff
      store clientRaw clientIP cartItems customerName contactNumber
      ServiceType.delivery paymentMethod total options).result =
        Except.ok nextOrderId ∧
    ∃ o, o ∈ (createOrder parse serialize now today fuel nextOrderId
        (some cfg) eff store clientRaw clientIP cartItems customerName
        contactNumber ServiceType.delivery paymentMethod total
        options).store.orders ∧
      o.id = nextOrderId ∧ o.status = Status.pending ∧
      o.lalamove_quotation_id = some q ∧ o.lalamove_order_id = none ∧
      o.lalamove_status = none ∧ o.lalamove_tracking_url = none := by
  have hfind : ∀ (row : OrderRow), row.id = nextOrderId →
      (store.orders ++ [row]).find? (fun o => o.id = nextOrderId)
        = some row := by
    intro row hrow
    rw [List.find?_append]
    have hnone : store.orders.find? (fun o => o.id = nextOrderId) = none := by
      rw [List.find?_eq_none]
      intro o ho
      simpa using hid o ho
    rw [hnone]
    simp [List.find?, hrow]
  unfold createOrder
  rw [hnum]
  simp only [hallow, h1, h2, h3, hq, not_true, Bool.not_eq_true]
  simp only [if_false]
  rw [hfind _ rfl]
  refine ⟨rfl, ?_⟩
  exact ⟨_, List.mem_append_right _ (List.mem_singleton_self _), rfl, rfl,
    rfl, rfl, rfl, rfl⟩

/-- Witness for C5: a concrete delivery submission whose booking throws
still returns success and persists a pending order with null booking
fields. -/
theorem createOrder_booking_failure_nonfatal_witness :
    (createOrder parseFail (fun _ => "s") 1000 "20250101" 10 1
      (some sampleCfg) effAllOk emptyStore none "session1" shakeCart "Ana"
      "0917" ServiceType.delivery "gcash" 300 deliveryOpts).result =
        Except.ok 1 ∧
    ∃ o, o ∈ (createOrder parseFail (fun _ => "s") 1000 "20250101" 10 1
        (some sampleCfg) effAllOk emptyStore none "session1" shakeCart "Ana"
        "0917" ServiceType.delivery "gcash" 300 deliveryOpts).store.orders ∧
      o.id = 1 ∧ o.status = Status.pending ∧
      o.lalamove_quotation_id = some "q1" ∧ o.lalamove_order_id = none ∧
      o.lalamove_status = none ∧ o.lalamove_tracking_url = none :=
  createOrder_booking_failure_nonfatal parseFail (fun _ => "s") 1000
    "20250101" 10 1 sampleCfg emptyStore none "session1" shakeCart "Ana"
    "0917" "gcash" 300 deliveryOpts "q1" "ORD-20250101-0001" effAllOk
    rfl (by decide) rfl rfl rfl rfl (by simp [emptyStore])

end StarrsFamous
